import Mathlib

/-!
Verification development for the WebSocket tunnel relay (server `src/server`,
client `src/client/src-tauri`).  The server's registries (`DashMap`) and the
client's maps (`HashMap`) are shallowly embedded as association lists with
overwrite-insert; outbound message queues and UI events become explicit lists
of effects; random UUID-derived identifiers become explicit `fresh` parameters.
Byte strings are `List Nat` (each element a byte value, or an ASCII code for
base64 text).
-/

namespace Tunnel

-- ═══ Association-list model of DashMap / HashMap ═══

/-- Lookup in an association list keyed by `String` (models `DashMap::get` /
`HashMap::get`). -/
def lookupA {β : Type} : List (String × β) → String → Option β
  | [], _ => none
  | p :: rest, k => if p.1 = k then some p.2 else lookupA rest k

/-- Remove every entry with the given key (models `DashMap::remove` /
`HashMap::remove`; keys are unique in the maps being modelled). -/
def removeA {β : Type} (l : List (String × β)) (k : String) : List (String × β) :=
  l.filter (fun p => decide (p.1 ≠ k))

/-- Key-overwriting insert (models `DashMap::insert` / `HashMap::insert`). -/
def insertA {β : Type} (l : List (String × β)) (k : String) (v : β) : List (String × β) :=
  (k, v) :: removeA l k

theorem mem_removeA {β : Type} {l : List (String × β)} {k : String} {p : String × β} :
    p ∈ removeA l k ↔ p ∈ l ∧ p.1 ≠ k := by
  simp [removeA]

theorem lookupA_removeA_self {β : Type} (l : List (String × β)) (k : String) :
    lookupA (removeA l k) k = none := by
  induction l with
  | nil => rfl
  | cons p rest ih =>
      by_cases hp : p.1 = k
      · simpa [removeA, List.filter_cons, hp] using ih
      · simpa [removeA, List.filter_cons, hp, lookupA] using ih

theorem lookupA_removeA_ne {β : Type} (l : List (String × β)) (k k' : String) (h : k ≠ k') :
    lookupA (removeA l k) k' = lookupA l k' := by
  induction l with
  | nil => rfl
  | cons p rest ih =>
      rw [removeA, List.filter_cons]
      by_cases hp : p.1 = k
      · rw [if_neg (by simp [hp])]
        rw [lookupA, if_neg (by rw [hp]; exact h)]
        exact ih
      · rw [if_pos (by simp [hp])]
        by_cases hq : p.1 = k'
        · rw [lookupA, if_pos hq, lookupA, if_pos hq]
        · rw [lookupA, if_neg hq, lookupA, if_neg hq]
          exact ih

theorem lookupA_insertA_self {β : Type} (l : List (String × β)) (k : String) (v : β) :
    lookupA (insertA l k v) k = some v := by
  simp [insertA, lookupA]

theorem lookupA_insertA_ne {β : Type} (l : List (String × β)) (k k' : String) (v : β)
    (h : k ≠ k') : lookupA (insertA l k v) k' = lookupA l k' := by
  simp only [insertA, lookupA, h, if_neg]
  exact lookupA_removeA_ne l k k' h

theorem lookupA_mem_keys {β : Type} {l : List (String × β)} {k : String} {v : β}
    (h : lookupA l k = some v) : k ∈ l.map (fun p => p.1) := by
  induction l with
  | nil => simp [lookupA] at h
  | cons p rest ih =>
      rw [lookupA] at h
      by_cases hp : p.1 = k
      · simp [hp]
      · rw [if_neg hp] at h
        simp [ih h]

/-- Membership after removing a list of keys one by one (the loop
`for sid in sessions_to_remove { state.sessions.remove(&sid) }`). -/
theorem mem_foldl_removeA {β : Type} (sids : List String) (ss : List (String × β))
    (p : String × β) (h : p ∈ sids.foldl (fun acc sid => removeA acc sid) ss) :
    p ∈ ss ∧ p.1 ∉ sids := by
  induction sids generalizing ss with
  | nil => simpa using h
  | cons s rest ih =>
      simp only [List.foldl_cons] at h
      obtain ⟨hmem, hni⟩ := ih (removeA ss s) h
      obtain ⟨hss, hne⟩ := mem_removeA.mp hmem
      refine ⟨hss, ?_⟩
      simp only [List.mem_cons, not_or]
      exact ⟨hne, hni⟩

-- ═══ Wire protocol (`protocol.rs`, shared by server and client) ═══

/-- The tagged union of JSON frames (`WsMessage` in `server/src/protocol.rs`
and `client/src-tauri/src/protocol.rs`).  `payload` of a `Data` frame is the
base64 text as a list of ASCII codes. -/
inductive WsMessage where
  | register
  | registerOk (agent_id : String)
  | connect (target_id remote_host : String) (remote_port : Nat)
  | tunnelRequest (session_id remote_host : String) (remote_port : Nat)
  | tunnelAccept (session_id : String)
  | tunnelReady (session_id : String)
  | tunnelClose (session_id : String)
  | streamOpen (session_id stream_id : String)
  | streamClose (session_id stream_id : String)
  | data (session_id stream_id role : String) (payload : List Nat)
  | ping
  | pong
  | error (message : String)
  deriving DecidableEq

-- ═══ Base64 (the `base64` crate's STANDARD engine: canonical padding) ═══

/-- The standard base64 alphabet, as a map from a 6-bit value to its ASCII
code (`A`-`Z`, `a`-`z`, `0`-`9`, `+`, `/`). -/
def encodeCharCode (n : Nat) : Nat :=
  if n < 26 then 65 + n
  else if n < 52 then 97 + (n - 26)
  else if n < 62 then 48 + (n - 52)
  else if n = 62 then 43
  else 47

/-- Inverse alphabet map; `none` on any ASCII code outside the alphabet
(in particular on the pad character `=`, ASCII 61). -/
def decodeCharCode (c : Nat) : Option Nat :=
  if 65 ≤ c ∧ c ≤ 90 then some (c - 65)
  else if 97 ≤ c ∧ c ≤ 122 then some (26 + (c - 97))
  else if 48 ≤ c ∧ c ≤ 57 then some (52 + (c - 48))
  else if c = 43 then some 62
  else if c = 47 then some 63
  else none

theorem decodeCharCode_encodeCharCode (n : Nat) (h : n < 64) :
    decodeCharCode (encodeCharCode n) = some n := by
  revert h
  revert n
  decide

theorem encodeCharCode_ne_pad (n : Nat) : encodeCharCode n ≠ 61 := by
  unfold encodeCharCode
  split <;> try omega
  split <;> try omega
  split <;> try omega
  split <;> omega

/-- Standard base64 encoding with padding (`BASE64.encode`), on byte lists:
3 input bytes become 4 alphabet codes; a trailing 1- or 2-byte group is
padded with `=` (ASCII 61). -/
def b64encode : List Nat → List Nat
  | [] => []
  | [a] => [encodeCharCode (a / 4), encodeCharCode (a % 4 * 16), 61, 61]
  | [a, b] => [encodeCharCode (a / 4), encodeCharCode (a % 4 * 16 + b / 16),
               encodeCharCode (b % 16 * 4), 61]
  | a :: b :: c :: rest =>
      encodeCharCode (a / 4) :: encodeCharCode (a % 4 * 16 + b / 16) ::
      encodeCharCode (b % 16 * 4 + c / 64) :: encodeCharCode (c % 64) :: b64encode rest

/-- Strict base64 decoding (`BASE64.decode` of the STANDARD engine): input
length must be a multiple of 4, padding may appear only at the very end, and
non-canonical trailing bits are rejected.  Returns `none` on any violation. -/
def b64decode : List Nat → Option (List Nat)
  | [] => some []
  | c1 :: c2 :: c3 :: c4 :: rest =>
      match decodeCharCode c1, decodeCharCode c2 with
      | some n1, some n2 =>
          if c3 = 61 then
            if c4 = 61 ∧ rest = [] ∧ n2 % 16 = 0 then
              some [n1 * 4 + n2 / 16]
            else none
          else
            match decodeCharCode c3 with
            | some n3 =>
                if c4 = 61 then
                  if rest = [] ∧ n3 % 4 = 0 then
                    some [n1 * 4 + n2 / 16, n2 % 16 * 16 + n3 / 4]
                  else none
                else
                  match decodeCharCode c4, b64decode rest with
                  | some n4, some tail =>
                      some ((n1 * 4 + n2 / 16) :: (n2 % 16 * 16 + n3 / 4) ::
                            (n3 % 4 * 64 + n4) :: tail)
                  | _, _ => none
            | none => none
      | _, _ => none
  | _ => none

/-- Base64 round trip: decoding an encoded byte list gives back the bytes. -/
theorem b64decode_b64encode (b : List Nat) (hb : ∀ x ∈ b, x < 256) :
    b64decode (b64encode b) = some b := by
  induction b using b64encode.induct with
  | case1 => rfl
  | case2 a =>
      have ha : a < 256 := hb a (by simp)
      have h1 := decodeCharCode_encodeCharCode (a / 4) (by omega)
      have h2 := decodeCharCode_encodeCharCode (a % 4 * 16) (by omega)
      have hm : a % 4 * 16 % 16 = 0 := by omega
      simp only [b64encode, b64decode, h1, h2]
      simp [hm]
      omega
  | case3 a b =>
      have ha : a < 256 := hb a (by simp)
      have hbb : b < 256 := hb b (by simp)
      have h1 := decodeCharCode_encodeCharCode (a / 4) (by omega)
      have h2 := decodeCharCode_encodeCharCode (a % 4 * 16 + b / 16) (by omega)
      have h3 := decodeCharCode_encodeCharCode (b % 16 * 4) (by omega)
      have hm : b % 16 * 4 % 4 = 0 := by omega
      simp only [b64encode, b64decode, h1, h2, h3]
      simp [encodeCharCode_ne_pad, hm]
      omega
  | case4 a b c rest ih =>
      have ha : a < 256 := hb a (by simp)
      have hbb : b < 256 := hb b (by simp)
      have hc : c < 256 := hb c (by simp)
      have hrest : ∀ x ∈ rest, x < 256 := fun x hx => hb x (by simp [hx])
      have h1 := decodeCharCode_encodeCharCode (a / 4) (by omega)
      have h2 := decodeCharCode_encodeCharCode (a % 4 * 16 + b / 16) (by omega)
      have h3 := decodeCharCode_encodeCharCode (b % 16 * 4 + c / 64) (by omega)
      have h4 := decodeCharCode_encodeCharCode (c % 64) (by omega)
      simp only [b64encode, b64decode, h1, h2, h3, h4, ih hrest]
      simp [encodeCharCode_ne_pad]
      omega

-- ═══ Server data model (`server/src/state.rs`) ═══

/-- `AgentInfo` (server): the outbound queue handle stored for a registered
agent.  A queue is identified by the id of the connection that owns it. -/
structure AgentInfo where
  tx : String
  deriving DecidableEq

/-- `TunnelSession` (server): metadata of an active tunnel session. -/
structure TunnelSession where
  session_id : String
  agent_id : String
  controller_id : String
  remote_host : String
  remote_port : Nat
  deriving DecidableEq

/-- `AppState` (server): the three registries.  `connections` maps a
connection id to its outbound queue handle. -/
structure AppState where
  agents : List (String × AgentInfo)
  connections : List (String × String)
  sessions : List (String × TunnelSession)
  deriving DecidableEq

/-- `GET /api/agents` (`server/src/api.rs`, `list_agents`): the keys of the
agent registry. -/
def list_agents (st : AppState) : List String :=
  st.agents.map (fun p => p.1)

-- ═══ Server message dispatch (`server/src/handlers.rs`) ═══

/-- `relay_message` (handlers.rs 145-161): route a message to the other side
of a tunnel based on `from_role`.  `"agent"` sends to the controller's queue
via the connection registry; `"controller"` sends to the agent's queue via
the agent registry; any other value sends nothing. -/
def relay_message (st : AppState) (session : TunnelSession) (msg : WsMessage)
    (from_role : String) : List (String × WsMessage) :=
  if from_role = "agent" then
    match lookupA st.connections session.controller_id with
    | some c => [(c, msg)]
    | none => []
  else if from_role = "controller" then
    match lookupA st.agents session.agent_id with
    | some a => [(a.tx, msg)]
    | none => []
  else []

/-- Result of one `handle_message` call: the updated registries, the updated
per-connection agent-id record, and the messages pushed into outbound queues
(queue handle, message), in program order. -/
structure DispatchOut where
  state : AppState
  agentId : Option String
  sends : List (String × WsMessage)
  deriving DecidableEq

/-- `handle_message` (handlers.rs 176-351).  `fresh` stands for the random
UUID-derived identifier generated in the `Register` and `Connect` arms
(`generate_agent_id()` resp. the fresh session id); `conn_id` is this
connection's id and `tx` its own outbound queue handle; `agentId` is the
per-connection `agent_id` mutex content. -/
def handle_message (fresh : String) (st : AppState) (conn_id tx : String)
    (agentId : Option String) (msg : WsMessage) : DispatchOut :=
  match msg with
  | .register =>
      let aid := fresh
      { state := { st with agents := insertA st.agents aid { tx := tx } },
        agentId := some aid,
        sends := [(tx, .registerOk aid)] }
  | .connect target_id remote_host remote_port =>
      match lookupA st.agents target_id with
      | some agent_info =>
          let session_id := fresh
          let session : TunnelSession :=
            { session_id := session_id, agent_id := target_id,
              controller_id := conn_id, remote_host := remote_host,
              remote_port := remote_port }
          { state := { st with sessions := insertA st.sessions session_id session },
            agentId := agentId,
            sends := [(agent_info.tx, .tunnelRequest session_id remote_host remote_port)] }
      | none =>
          { state := st, agentId := agentId,
            sends := [(tx, .error ("Agent \x27" ++ target_id ++ "\x27 not found"))] }
  | .tunnelAccept session_id =>
      match lookupA st.sessions session_id with
      | some session =>
          match lookupA st.connections session.controller_id with
          | some c => { state := st, agentId := agentId,
                        sends := [(c, .tunnelReady session_id)] }
          | none => { state := st, agentId := agentId, sends := [] }
      | none => { state := st, agentId := agentId, sends := [] }
  | .streamOpen session_id stream_id =>
      match lookupA st.sessions session_id with
      | some session =>
          let role := if conn_id = session.controller_id then "controller" else "agent"
          { state := st, agentId := agentId,
            sends := relay_message st session (.streamOpen session_id stream_id) role }
      | none => { state := st, agentId := agentId, sends := [] }
  | .streamClose session_id stream_id =>
      match lookupA st.sessions session_id with
      | some session =>
          let role := if conn_id = session.controller_id then "controller" else "agent"
          { state := st, agentId := agentId,
            sends := relay_message st session (.streamClose session_id stream_id) role }
      | none => { state := st, agentId := agentId, sends := [] }
  | .data session_id stream_id role payload =>
      match lookupA st.sessions session_id with
      | some session =>
          { state := st, agentId := agentId,
            sends := relay_message st session (.data session_id stream_id role payload) role }
      | none => { state := st, agentId := agentId, sends := [] }
  | .tunnelClose session_id =>
      match lookupA st.sessions session_id with
      | some session =>
          let st1 := { st with sessions := removeA st.sessions session_id }
          let toController :=
            match lookupA st1.connections session.controller_id with
            | some c => [(c, WsMessage.tunnelClose session.session_id)]
            | none => []
          let toAgent :=
            match lookupA st1.agents session.agent_id with
            | some a => [(a.tx, WsMessage.tunnelClose session.session_id)]
            | none => []
          { state := st1, agentId := agentId, sends := toController ++ toAgent }
      | none => { state := st, agentId := agentId, sends := [] }
  | .ping => { state := st, agentId := agentId, sends := [(tx, .pong)] }
  | _ => { state := st, agentId := agentId, sends := [] }

/-- Cleanup phase of `handle_connection` (handlers.rs 105-134): remove the
connection from the connection registry; then, only when the connection has a
recorded agent id, remove that id from the agent registry and remove every
session whose `agent_id` equals the recorded id or whose `controller_id`
equals this connection's id. -/
def conn_cleanup (st : AppState) (conn_id : String) (agentId : Option String) : AppState :=
  let st1 := { st with connections := removeA st.connections conn_id }
  match agentId with
  | some aid =>
      let st2 := { st1 with agents := removeA st1.agents aid }
      let sessions_to_remove :=
        (st2.sessions.filter
          (fun p => decide (p.2.agent_id = aid ∨ p.2.controller_id = conn_id))).map
          (fun p => p.1)
      { st2 with sessions :=
          sessions_to_remove.foldl (fun ss sid => removeA ss sid) st2.sessions }
  | none => st1

-- ═══ C1: routing of Data frames ═══

/-- Modelled from the spec: the sender-role determination the spec prescribes
for relayed frames, "controller iff `this.conn_id == session.controller_id`,
else agent". -/
def spec_data_role (conn_id : String) (session : TunnelSession) : String :=
  if conn_id = session.controller_id then "controller" else "agent"

/-- Concrete server state for the C1 counterexample: one registered agent
`AAAA-BBBB` on connection `a` (queue `qa`), a controller connection `c`
(queue `qc`), and one session `s1` between them. -/
def sessC1 : TunnelSession :=
  { session_id := "s1", agent_id := "AAAA-BBBB", controller_id := "c",
    remote_host := "h", remote_port := 22 }

def stC1 : AppState :=
  { agents := [("AAAA-BBBB", { tx := "qa" })],
    connections := [("c", "qc"), ("a", "qa")],
    sessions := [("s1", sessC1)] }

/-- C1 (counterexample): a `Data` frame sent by the controller connection `c`
but carrying `role = "agent"` is routed by the frame's role field back to the
controller's own queue `qc`, not — as the claim requires — by the
conn-id-derived role `"controller"` to the agent's queue `qa`. -/
theorem C1_counterexample :
    lookupA stC1.sessions "s1" = some sessC1 ∧
    (handle_message "f" stC1 "c" "qc" none
        (.data "s1" "x" "agent" [104])).sends =
      [("qc", WsMessage.data "s1" "x" "agent" [104])] ∧
    relay_message stC1 sessC1 (.data "s1" "x" "agent" [104])
        (spec_data_role "c" sessC1) =
      [("qa", WsMessage.data "s1" "x" "agent" [104])] ∧
    (handle_message "f" stC1 "c" "qc" none
        (.data "s1" "x" "agent" [104])).sends ≠
      relay_message stC1 sessC1 (.data "s1" "x" "agent" [104])
        (spec_data_role "c" sessC1) := by
  refine ⟨rfl, rfl, rfl, ?_⟩
  decide

/-- C1 (amended): for every `Data` frame referencing a registered session, the
server leaves all registries and the agent-id record unchanged and forwards
the frame unchanged according to the frame's own `role` field — `"agent"`
goes to the controller's queue via the connection registry, `"controller"`
goes to the agent's queue via the agent registry, anything else is dropped;
the sending connection's id is not consulted. -/
theorem C1_data_relay_by_frame_role (fresh : String) (st : AppState)
    (conn_id tx : String) (aid : Option String) (sid stid role : String)
    (payload : List Nat) (session : TunnelSession)
    (h : lookupA st.sessions sid = some session) :
    (handle_message fresh st conn_id tx aid (.data sid stid role payload)).state = st ∧
    (handle_message fresh st conn_id tx aid (.data sid stid role payload)).agentId = aid ∧
    (handle_message fresh st conn_id tx aid (.data sid stid role payload)).sends =
      (if role = "agent" then
        match lookupA st.connections session.controller_id with
        | some c => [(c, WsMessage.data sid stid role payload)]
        | none => []
      else if role = "controller" then
        match lookupA st.agents session.agent_id with
        | some a => [(a.tx, WsMessage.data sid stid role payload)]
        | none => []
      else []) := by
  refine ⟨?_, ?_, ?_⟩ <;> simp only [handle_message, h, relay_message]

/-- Witness for `C1_data_relay_by_frame_role` at the concrete state `stC1`. -/
theorem C1_data_relay_by_frame_role_witness :
    (handle_message "f" stC1 "c" "qc" none
        (.data "s1" "x" "controller" [104])).sends =
      [("qa", WsMessage.data "s1" "x" "controller" [104])] := by
  have h := C1_data_relay_by_frame_role "f" stC1 "c" "qc" none "s1" "x" "controller"
    [104] sessC1 rfl
  rw [h.2.2]
  rfl

-- ═══ C2: sessions after disconnect cleanup ═══

/-- Concrete state for the C2 counterexample: connection `c` is a controller
that never sent `Register`; session `s1` has `controller_id = c`. -/
def sessC2 : TunnelSession :=
  { session_id := "s1", agent_id := "AAAA-BBBB", controller_id := "c",
    remote_host := "h", remote_port := 22 }

def stC2 : AppState :=
  { agents := [], connections := [("c", "qc")], sessions := [("s1", sessC2)] }

/-- C2 (counterexample): when the never-registered controller connection `c`
disconnects, its cleanup leaves session `s1` — which references `c` as its
controller — in the session registry, so the claim fails for connections
that never sent `Register`. -/
theorem C2_counterexample :
    (conn_cleanup stC2 "c" none).sessions = [("s1", sessC2)] ∧
    sessC2.controller_id = "c" := by
  exact ⟨rfl, rfl⟩

/-- C2 (amended): disconnect cleanup removes referencing sessions only when
the connection has a recorded agent id.  If the connection registered (record
`some aid`), then after cleanup no session in the registry has
`agent_id = aid` or `controller_id = conn_id`; if it never registered, the
cleanup removes only the connection-registry entry and leaves every session
in place. -/
theorem C2_cleanup_when_registered (st : AppState) (conn_id aid : String) :
    (∀ p ∈ (conn_cleanup st conn_id (some aid)).sessions,
        ¬ (p.2.agent_id = aid ∨ p.2.controller_id = conn_id)) ∧
    conn_cleanup st conn_id none =
      { st with connections := removeA st.connections conn_id } := by
  constructor
  · intro p hp href
    simp only [conn_cleanup] at hp
    obtain ⟨hmem, hni⟩ := mem_foldl_removeA _ _ _ hp
    apply hni
    apply List.mem_map.mpr
    refine ⟨p, ?_, rfl⟩
    apply List.mem_filter.mpr
    exact ⟨hmem, by simpa using href⟩
  · rfl

/-- Witness for `C2_cleanup_when_registered` at a concrete registered agent
connection: after the agent connection `a` (recorded agent id `AAAA-BBBB`)
disconnects, no session referencing it remains. -/
theorem C2_cleanup_when_registered_witness :
    (∀ p ∈ (conn_cleanup stC1 "a" (some "AAAA-BBBB")).sessions,
        ¬ (p.2.agent_id = "AAAA-BBBB" ∨ p.2.controller_id = "a")) ∧
    conn_cleanup stC1 "a" none =
      { stC1 with connections := removeA stC1.connections "a" } :=
  C2_cleanup_when_registered stC1 "a" "AAAA-BBBB"

-- ═══ C5: Connect to an unknown agent ═══

/-- C5: a `Connect` whose target is absent from the agent registry produces
exactly one `Error` reply on the sender's own queue, with the message
`Agent <target> not found` (target in single quotes), and changes nothing:
registries and the agent-id record are returned unmodified and no message is
sent to any other queue. -/
theorem C5_connect_unknown_agent (fresh : String) (st : AppState)
    (conn_id tx : String) (aid : Option String) (target_id remote_host : String)
    (remote_port : Nat) (h : lookupA st.agents target_id = none) :
    handle_message fresh st conn_id tx aid
        (.connect target_id remote_host remote_port) =
      { state := st, agentId := aid,
        sends := [(tx, .error ("Agent \x27" ++ target_id ++ "\x27 not found"))] } := by
  simp only [handle_message, h]

/-- Witness for `C5_connect_unknown_agent`: connecting to `ZZZZ-ZZZZ` on a
server with an empty agent registry. -/
theorem C5_connect_unknown_agent_witness :
    handle_message "f" { agents := [], connections := [], sessions := [] }
        "c" "qc" none (.connect "ZZZZ-ZZZZ" "127.0.0.1" 22) =
      { state := { agents := [], connections := [], sessions := [] },
        agentId := none,
        sends := [("qc", .error "Agent \x27ZZZZ-ZZZZ\x27 not found")] } := by
  have h := C5_connect_unknown_agent "f"
    { agents := [], connections := [], sessions := [] } "c" "qc" none
    "ZZZZ-ZZZZ" "127.0.0.1" 22 rfl
  exact h

-- ═══ C9: double Register leaks the earlier agent id ═══

/-- C9: if one connection sends `Register` twice (fresh ids `a1` then `a2`),
both ids end up in the agent registry mapped to the connection's queue, the
per-connection record keeps only `a2`, and disconnect cleanup removes only
`a2`: `a1` survives in the registry (and in `GET /api/agents`) although the
connection itself is gone. -/
theorem C9_double_register_leak (st : AppState) (conn_id tx a1 a2 : String)
    (hne : a1 ≠ a2) :
    let r1 := handle_message a1 st conn_id tx none .register
    let r2 := handle_message a2 r1.state conn_id tx r1.agentId .register
    let fin := conn_cleanup r2.state conn_id r2.agentId
    r1.agentId = some a1 ∧
    r2.agentId = some a2 ∧
    lookupA r2.state.agents a1 = some { tx := tx } ∧
    lookupA r2.state.agents a2 = some { tx := tx } ∧
    lookupA fin.agents a2 = none ∧
    lookupA fin.agents a1 = some { tx := tx } ∧
    a1 ∈ list_agents fin ∧
    lookupA fin.connections conn_id = none := by
  intro r1 r2 fin
  have hr2agents : r2.state.agents = insertA (insertA st.agents a1 { tx := tx }) a2 { tx := tx } := rfl
  have hl1 : lookupA r2.state.agents a1 = some { tx := tx } := by
    rw [hr2agents, lookupA_insertA_ne _ _ _ _ (Ne.symm hne), lookupA_insertA_self]
  have hl2 : lookupA r2.state.agents a2 = some { tx := tx } := by
    rw [hr2agents, lookupA_insertA_self]
  have hfinagents : fin.agents = removeA r2.state.agents a2 := rfl
  have hf2 : lookupA fin.agents a2 = none := by
    rw [hfinagents, lookupA_removeA_self]
  have hf1 : lookupA fin.agents a1 = some { tx := tx } := by
    rw [hfinagents, lookupA_removeA_ne _ _ _ (Ne.symm hne), hl1]
  have hfinconn : fin.connections = removeA st.connections conn_id := rfl
  refine ⟨rfl, rfl, hl1, hl2, hf2, hf1, ?_, ?_⟩
  · exact lookupA_mem_keys hf1
  · rw [hfinconn, lookupA_removeA_self]

/-- Witness for `C9_double_register_leak` on an initially empty server with
fresh ids `AAAA-0001` and `AAAA-0002`. -/
theorem C9_double_register_leak_witness :
    let st0 : AppState := { agents := [], connections := [("c", "q")], sessions := [] }
    let r1 := handle_message "AAAA-0001" st0 "c" "q" none .register
    let r2 := handle_message "AAAA-0002" r1.state "c" "q" r1.agentId .register
    let fin := conn_cleanup r2.state "c" r2.agentId
    r1.agentId = some "AAAA-0001" ∧
    r2.agentId = some "AAAA-0002" ∧
    lookupA r2.state.agents "AAAA-0001" = some { tx := "q" } ∧
    lookupA r2.state.agents "AAAA-0002" = some { tx := "q" } ∧
    lookupA fin.agents "AAAA-0002" = none ∧
    lookupA fin.agents "AAAA-0001" = some { tx := "q" } ∧
    "AAAA-0001" ∈ list_agents fin ∧
    lookupA fin.connections "c" = none :=
  C9_double_register_leak
    { agents := [], connections := [("c", "q")], sessions := [] }
    "c" "q" "AAAA-0001" "AAAA-0002" (by decide)

-- ═══ Client data model (`client/src-tauri/src/state.rs`) ═══

/-- `TunnelInfo` (client): one UI-visible tunnel entry. -/
structure TunnelInfo where
  session_id : String
  remote_host : String
  remote_port : Nat
  local_port : Nat
  direction : String
  status : String
  deriving DecidableEq

/-- `PendingConnect` (client): parameters stored between `Connect` and
`TunnelReady`. -/
structure PendingConnect where
  local_port : Nat
  remote_host : String
  remote_port : Nat
  deriving DecidableEq

/-- `AgentTunnelInfo` (client): the target address for an agent-side tunnel. -/
structure AgentTunnelInfo where
  remote_host : String
  remote_port : Nat
  deriving DecidableEq

/-- `AgentState` (client): the shared state object.  `ws_tx` holds an
abstract handle to the live outbound WebSocket queue (`none` when not
connected); data-channel senders and task handles are abstract `Nat` ids. -/
structure AgentState where
  agent_id : String
  server_url : String
  connected : Bool
  ws_tx : Option String
  tunnels : List TunnelInfo
  pending_connects : List (String × PendingConnect)
  data_channels : List (String × Nat)
  agent_tunnels : List (String × AgentTunnelInfo)
  task_handles : List (String × List Nat)
  deriving DecidableEq

/-- `AgentState::abort_all_tasks` (state.rs 162-170): drain `task_handles`,
aborting every handle.  Returns the new state and the aborted handles in
drain order. -/
def abort_all_tasks (st : AgentState) : AgentState × List Nat :=
  ({ st with task_handles := [] }, (st.task_handles.map (fun p => p.2)).flatten)

/-- Effects a client code path can perform besides updating `AgentState`:
enqueue a frame on the outbound WebSocket queue, push decoded bytes into a
data channel, or emit a UI event. -/
inductive ClientEffect where
  | wsSend (m : WsMessage)
  | chanPush (chan : Nat) (bytes : List Nat)
  | emit (event : String)
  deriving DecidableEq

-- ═══ C10 / C4: the inbound dispatcher's Data arm (`agent.rs` 418-438) ═══

/-- The `Data` arm of `handle_server_message` (agent.rs 418-438): base64-decode
the payload; on success look up the data channel under
`controller-<stream_id>` when the frame's role is `"agent"`, else under
`agent-<stream_id>`, and push the decoded bytes into it; otherwise fall
through silently.  The state is returned untouched on every path. -/
def client_handle_data (st : AgentState) (stream_id role : String)
    (payload : List Nat) : AgentState × List ClientEffect :=
  match b64decode payload with
  | some data =>
      let target_key :=
        if role = "agent" then "controller-" ++ stream_id else "agent-" ++ stream_id
      match lookupA st.data_channels target_key with
      | some sender => (st, [.chanPush sender data])
      | none => (st, [])
  | none => (st, [])

/-- C10: a `Data` frame whose payload is not valid base64 is dropped silently
— no channel push, no state change, no UI event; the same happens when the
payload decodes but no data-channel entry exists for the computed key. -/
theorem C10_invalid_data_dropped (st : AgentState) (stream_id role : String)
    (payload : List Nat) :
    (b64decode payload = none →
        client_handle_data st stream_id role payload = (st, [])) ∧
    (∀ bytes, b64decode payload = some bytes →
        lookupA st.data_channels
            (if role = "agent" then "controller-" ++ stream_id
             else "agent-" ++ stream_id) = none →
        client_handle_data st stream_id role payload = (st, [])) := by
  constructor
  · intro h
    simp [client_handle_data, h]
  · intro bytes hdec hch
    simp [client_handle_data, hdec, hch]

/-- Witness for `C10_invalid_data_dropped`: the one-character payload `=`
(ASCII 61) is invalid base64 and is dropped; the valid payload `AA==`
(ASCII 65 65 61 61) decodes but finds no channel in an empty map and is also
dropped. -/
theorem C10_invalid_data_dropped_witness :
    let st0 : AgentState :=
      { agent_id := "", server_url := "ws://127.0.0.1:7070/ws", connected := true,
        ws_tx := some "q", tunnels := [], pending_connects := [],
        data_channels := [], agent_tunnels := [], task_handles := [] }
    client_handle_data st0 "s" "agent" [61] = (st0, []) ∧
    client_handle_data st0 "s" "agent" [65, 65, 61, 61] = (st0, []) := by
  intro st0
  constructor
  · exact (C10_invalid_data_dropped st0 "s" "agent" [61]).1 rfl
  · exact (C10_invalid_data_dropped st0 "s" "agent" [65, 65, 61, 61]).2 [0] rfl rfl

-- ═══ C4: base64 round trip through a relay Data frame ═══

/-- The frame built by the TCP→WS direction of `handle_stream_relay`
(relay.rs 72-85) for a non-empty chunk read from TCP: the chunk is
base64-encoded into the payload. -/
def relay_chunk_frame (session_id stream_id role : String) (chunk : List Nat) :
    WsMessage :=
  .data session_id stream_id role (b64encode chunk)

/-- Payload carried by a frame (empty for non-`Data` frames). -/
def frame_payload : WsMessage → List Nat
  | .data _ _ _ p => p
  | _ => []

/-- C4: for every non-empty byte chunk read from TCP, the `Data` frame the
relay produces carries a payload that base64-decodes back to exactly the
chunk, so the receiving dispatcher pushes exactly the bytes that were read
into the target data channel. -/
theorem C4_base64_roundtrip (sid stid role : String) (chunk : List Nat)
    (st : AgentState) (ch : Nat) (_hne : chunk ≠ [])
    (hb : ∀ x ∈ chunk, x < 256)
    (hch : lookupA st.data_channels
        (if role = "agent" then "controller-" ++ stid else "agent-" ++ stid) =
      some ch) :
    b64decode (frame_payload (relay_chunk_frame sid stid role chunk)) = some chunk ∧
    client_handle_data st stid role
        (frame_payload (relay_chunk_frame sid stid role chunk)) =
      (st, [.chanPush ch chunk]) := by
  have hrt := b64decode_b64encode chunk hb
  constructor
  · simpa [relay_chunk_frame, frame_payload] using hrt
  · simp [client_handle_data, relay_chunk_frame, frame_payload, hrt, hch]

/-- Witness for `C4_base64_roundtrip`: the chunk `hi` (bytes 104 105) encodes
to `aGk=` and is delivered intact to channel 5. -/
theorem C4_base64_roundtrip_witness :
    let st0 : AgentState :=
      { agent_id := "", server_url := "ws://127.0.0.1:7070/ws", connected := true,
        ws_tx := some "q", tunnels := [], pending_connects := [],
        data_channels := [("controller-t1", 5)], agent_tunnels := [],
        task_handles := [] }
    b64decode (frame_payload (relay_chunk_frame "s1" "t1" "agent" [104, 105])) =
      some [104, 105] ∧
    client_handle_data st0 "t1" "agent"
        (frame_payload (relay_chunk_frame "s1" "t1" "agent" [104, 105])) =
      (st0, [.chanPush 5 [104, 105]]) := by
  intro st0
  exact C4_base64_roundtrip "s1" "t1" "agent" [104, 105] st0 5 (by decide)
    (by decide) rfl

-- ═══ C3: ordering of channel pre-registration against side effects ═══

/-- The externally visible steps a stream-setup code path performs, in
program order. -/
inductive StreamSetupAction where
  | wsSendStreamOpen (session_id stream_id : String)
  | insertDataChannel (key : String)
  | spawnRelayTask (key role : String)
  | tcpDial (remote_host : String) (remote_port : Nat)
  deriving DecidableEq

/-- Controller-side accept path (agent.rs 252-298), per accepted local TCP
connection: enqueue `StreamOpen` to the server, then insert the
`controller-<stream_id>` data channel, then spawn the relay task. -/
def controller_accept_actions (sid stream_id : String) : List StreamSetupAction :=
  [.wsSendStreamOpen sid stream_id,
   .insertDataChannel ("controller-" ++ stream_id),
   .spawnRelayTask ("controller-" ++ stream_id) "controller"]

/-- Agent-side `StreamOpen` path (agent.rs 342-388) when the session is known:
insert the `agent-<stream_id>` data channel, then start the outbound TCP
dial to the target in a spawned task. -/
def agent_stream_open_actions (stream_id remote_host : String)
    (remote_port : Nat) : List StreamSetupAction :=
  [.insertDataChannel ("agent-" ++ stream_id),
   .tcpDial remote_host remote_port]

/-- C3 (code evaluation at the failing input): on the controller side the
`StreamOpen` enqueue (index 0) precedes the `controller-t1` data-channel
insert (index 1), contradicting the claimed order, while on the agent side
the `agent-t1` insert (index 0) does precede the TCP dial (index 1) as
claimed. -/
theorem C3_controller_inserts_after_streamopen :
    (controller_accept_actions "s1" "t1").indexOf
        (.wsSendStreamOpen "s1" "t1") <
      (controller_accept_actions "s1" "t1").indexOf
        (.insertDataChannel ("controller-" ++ "t1")) ∧
    (agent_stream_open_actions "t1" "127.0.0.1" 22).indexOf
        (.insertDataChannel ("agent-" ++ "t1")) <
      (agent_stream_open_actions "t1" "127.0.0.1" 22).indexOf
        (.tcpDial "127.0.0.1" 22) := by
  decide

-- ═══ C6: supervisor disconnect cleanup (`agent.rs` 111-123) ═══

/-- The operations the supervisor performs after the inbound loop returns
(agent.rs 114-123), in program order. -/
inductive CleanupOp where
  | abortOutboundTask
  | abortHeartbeatTask
  | setConnectedFalse
  | clearWsTx
  | clearDataChannels
  | clearAgentTunnels
  | abortAllTasks
  | clearTunnels
  | emitTunnelsUpdated
  | emitConnectionStatusFalse
  deriving DecidableEq

/-- The disconnect-cleanup sequence exactly as written in agent.rs 114-123. -/
def disconnect_cleanup_ops : List CleanupOp :=
  [.abortOutboundTask, .abortHeartbeatTask, .setConnectedFalse, .clearWsTx,
   .clearDataChannels, .clearAgentTunnels, .abortAllTasks, .clearTunnels,
   .emitTunnelsUpdated, .emitConnectionStatusFalse]

/-- Effect of a single cleanup operation on the shared state, plus the UI
events it emits.  The two task aborts touch connection-local tasks, not the
shared state. -/
def apply_cleanup_op (st : AgentState) (op : CleanupOp) : AgentState × List String :=
  match op with
  | .abortOutboundTask => (st, [])
  | .abortHeartbeatTask => (st, [])
  | .setConnectedFalse => ({ st with connected := false }, [])
  | .clearWsTx => ({ st with ws_tx := none }, [])
  | .clearDataChannels => ({ st with data_channels := [] }, [])
  | .clearAgentTunnels => ({ st with agent_tunnels := [] }, [])
  | .abortAllTasks => ((abort_all_tasks st).1, [])
  | .clearTunnels => ({ st with tunnels := [] }, [])
  | .emitTunnelsUpdated => (st, ["tunnels-updated"])
  | .emitConnectionStatusFalse => (st, ["connection-status"])

/-- Run the whole disconnect cleanup, accumulating emitted UI events. -/
def run_disconnect_cleanup (st : AgentState) : AgentState × List String :=
  disconnect_cleanup_ops.foldl
    (fun acc op =>
      let r := apply_cleanup_op acc.1 op
      (r.1, acc.2 ++ r.2))
    (st, [])

/-- C6: the supervisor's disconnect cleanup performs, in program order,
connected := false, ws_tx := none, clear data_channels, clear agent_tunnels,
abort all per-session tasks (emptying task_handles), clear the tunnel list,
then emits the UI updates; afterwards `connected = false`, `ws_tx = none`,
and `data_channels`, `agent_tunnels`, `task_handles`, `tunnels` are all
empty, with the remaining fields untouched. -/
theorem C6_disconnect_cleanup (st : AgentState) :
    (disconnect_cleanup_ops.indexOf .setConnectedFalse <
        disconnect_cleanup_ops.indexOf .clearWsTx ∧
      disconnect_cleanup_ops.indexOf .clearWsTx <
        disconnect_cleanup_ops.indexOf .clearDataChannels ∧
      disconnect_cleanup_ops.indexOf .clearDataChannels <
        disconnect_cleanup_ops.indexOf .clearAgentTunnels ∧
      disconnect_cleanup_ops.indexOf .clearAgentTunnels <
        disconnect_cleanup_ops.indexOf .abortAllTasks ∧
      disconnect_cleanup_ops.indexOf .abortAllTasks <
        disconnect_cleanup_ops.indexOf .clearTunnels ∧
      disconnect_cleanup_ops.indexOf .clearTunnels <
        disconnect_cleanup_ops.indexOf .emitTunnelsUpdated) ∧
    (run_disconnect_cleanup st).1 =
      { st with connected := false, ws_tx := none, data_channels := [],
                agent_tunnels := [], task_handles := [], tunnels := [] } ∧
    (run_disconnect_cleanup st).2 = ["tunnels-updated", "connection-status"] := by
  refine ⟨by decide, ?_, ?_⟩ <;> rfl

-- ═══ C7: relay exit and cleanup (`relay.rs` 67-118) ═══

/-- Result of one iteration of the TCP→WS direction (relay.rs 69-89):
`none` models a read error, `some []` a zero-length read (clean EOF),
`some bytes` a successful non-empty chunk.  The loop breaks (the direction
exits) on error and on EOF; otherwise it sends one `Data` frame. -/
inductive TcpToWsStep where
  | exit
  | sendFrame (m : WsMessage)
  deriving DecidableEq

def tcp_to_ws_on_read (sid stid role : String) : Option (List Nat) → TcpToWsStep
  | none => .exit
  | some [] => .exit
  | some bytes => .sendFrame (.data sid stid role (b64encode bytes))

/-- The cleanup `handle_stream_relay` performs after `select!` returns, i.e.
after either direction exits (relay.rs 110-118), in program order: remove the
relay's `data_channels` entry, then enqueue one `StreamClose`. -/
inductive RelayCleanupAction where
  | removeChannel (key : String)
  | wsSend (m : WsMessage)
  deriving DecidableEq

def relay_cleanup_actions (channel_key sid stid : String) : List RelayCleanupAction :=
  [.removeChannel channel_key, .wsSend (.streamClose sid stid)]

/-- Run the relay cleanup over the data-channel map, accumulating the frames
enqueued on the outbound WebSocket queue. -/
def run_relay_cleanup (channels : List (String × Nat)) (channel_key sid stid : String) :
    List (String × Nat) × List WsMessage :=
  (relay_cleanup_actions channel_key sid stid).foldl
    (fun acc a =>
      match a with
      | .removeChannel k => (removeA acc.1 k, acc.2)
      | .wsSend m => (acc.1, acc.2 ++ [m]))
    (channels, [])

/-- C7: the TCP→WS direction exits on a zero-length read (EOF), and the
relay's cleanup first removes the `data_channels` entry for its channel key
(so the key no longer resolves) and then enqueues exactly one
`StreamClose` with the relay's session and stream ids. -/
theorem C7_relay_exit_cleanup (channels : List (String × Nat))
    (key sid stid role : String) :
    tcp_to_ws_on_read sid stid role (some []) = .exit ∧
    run_relay_cleanup channels key sid stid =
      (removeA channels key, [.streamClose sid stid]) ∧
    lookupA (run_relay_cleanup channels key sid stid).1 key = none := by
  refine ⟨rfl, rfl, ?_⟩
  exact lookupA_removeA_self channels key

-- ═══ C8: the `connect_to_agent` command (`commands.rs` 60-116) ═══

/-- `connect_to_agent` (commands.rs 60-116).  `fresh8` stands for the first 8
characters of the random UUID used for the placeholder session id.  Fails
before touching any state when `ws_tx` is `none`; otherwise stores the
pending connect keyed by `target_id`, enqueues `Connect`, appends a
`connecting` outgoing tunnel entry bearing the placeholder id, emits a UI
update, and returns the placeholder id. -/
def connect_to_agent (st : AgentState) (target_id remote_host : String)
    (remote_port local_port : Nat) (fresh8 : String) :
    Except String (String × AgentState × List ClientEffect) :=
  match st.ws_tx with
  | none => .error "Not connected to server"
  | some _ =>
      let pc : PendingConnect :=
        { local_port := local_port, remote_host := remote_host,
          remote_port := remote_port }
      let st1 := { st with pending_connects := insertA st.pending_connects target_id pc }
      let session_id := "pending-" ++ fresh8
      let entry : TunnelInfo :=
        { session_id := session_id, remote_host := remote_host,
          remote_port := remote_port, local_port := local_port,
          direction := "outgoing", status := "connecting" }
      let st2 := { st1 with tunnels := st1.tunnels ++ [entry] }
      .ok (session_id, st2,
        [.wsSend (.connect target_id remote_host remote_port),
         .emit "tunnels-updated"])

/-- Hex digit on ASCII codes (0-9, A-F, a-f). -/
def isHexCharCode (n : Nat) : Bool :=
  decide ((48 ≤ n ∧ n ≤ 57) ∨ (65 ≤ n ∧ n ≤ 70) ∨ (97 ≤ n ∧ n ≤ 102))

/-- C8: with `ws_tx = none` the command fails with `Not connected to server`
without producing any new state (pending connects and tunnels untouched);
with a live sender it returns the placeholder id `pending-` ++ 8 hex
characters, stores the pending connect keyed by `target_id`, and appends an
outgoing `connecting` tunnel entry bearing that placeholder id, leaving every
other state field unchanged. -/
theorem C8_connect_to_agent (st : AgentState) (target_id remote_host : String)
    (remote_port local_port : Nat) (fresh8 : String)
    (hlen : fresh8.length = 8)
    (hhex : ∀ c ∈ fresh8.data, isHexCharCode c.toNat = true) :
    (st.ws_tx = none →
        connect_to_agent st target_id remote_host remote_port local_port fresh8 =
          .error "Not connected to server") ∧
    (∀ q, st.ws_tx = some q →
        ∃ sid st2,
          connect_to_agent st target_id remote_host remote_port local_port fresh8 =
            .ok (sid, st2,
              [.wsSend (.connect target_id remote_host remote_port),
               .emit "tunnels-updated"]) ∧
          sid = "pending-" ++ fresh8 ∧
          (∃ s, sid = "pending-" ++ s ∧ s.length = 8 ∧
              ∀ c ∈ s.data, isHexCharCode c.toNat = true) ∧
          lookupA st2.pending_connects target_id =
            some { local_port := local_port, remote_host := remote_host,
                   remote_port := remote_port } ∧
          st2.tunnels = st.tunnels ++
            [{ session_id := sid, remote_host := remote_host,
               remote_port := remote_port, local_port := local_port,
               direction := "outgoing", status := "connecting" }] ∧
          st2.ws_tx = st.ws_tx ∧ st2.connected = st.connected ∧
          st2.data_channels = st.data_channels ∧
          st2.agent_tunnels = st.agent_tunnels ∧
          st2.task_handles = st.task_handles) := by
  constructor
  · intro h
    simp [connect_to_agent, h]
  · intro q h
    refine ⟨"pending-" ++ fresh8,
      { st with
          pending_connects := insertA st.pending_connects target_id
            ⟨local_port, remote_host, remote_port⟩,
          tunnels := st.tunnels ++
            [⟨"pending-" ++ fresh8, remote_host, remote_port, local_port,
              "outgoing", "connecting"⟩] },
      ?_, rfl, ⟨fresh8, rfl, hlen, hhex⟩,
      lookupA_insertA_self _ _ _, rfl, rfl, rfl, rfl, rfl, rfl⟩
    simp [connect_to_agent, h]

/-- Witness for `C8_connect_to_agent`: both branches at concrete states, with
`fresh8 = "0a1b2c3d"`. -/
theorem C8_connect_to_agent_witness :
    let stOff : AgentState :=
      { agent_id := "", server_url := "ws://127.0.0.1:7070/ws", connected := false,
        ws_tx := none, tunnels := [], pending_connects := [],
        data_channels := [], agent_tunnels := [], task_handles := [] }
    let stOn : AgentState := { stOff with connected := true, ws_tx := some "q" }
    connect_to_agent stOff "AAAA-BBBB" "127.0.0.1" 22 2222 "0a1b2c3d" =
      .error "Not connected to server" ∧
    ∃ sid st2,
      connect_to_agent stOn "AAAA-BBBB" "127.0.0.1" 22 2222 "0a1b2c3d" =
        .ok (sid, st2,
          [.wsSend (.connect "AAAA-BBBB" "127.0.0.1" 22),
           .emit "tunnels-updated"]) ∧
      sid = "pending-" ++ "0a1b2c3d" ∧
      (∃ s, sid = "pending-" ++ s ∧ s.length = 8 ∧
          ∀ c ∈ s.data, isHexCharCode c.toNat = true) ∧
      lookupA st2.pending_connects "AAAA-BBBB" =
        some { local_port := 2222, remote_host := "127.0.0.1", remote_port := 22 } ∧
      st2.tunnels = stOn.tunnels ++
        [{ session_id := sid, remote_host := "127.0.0.1", remote_port := 22,
           local_port := 2222, direction := "outgoing", status := "connecting" }] ∧
      st2.ws_tx = stOn.ws_tx ∧ st2.connected = stOn.connected ∧
      st2.data_channels = stOn.data_channels ∧
      st2.agent_tunnels = stOn.agent_tunnels ∧
      st2.task_handles = stOn.task_handles := by
  intro stOff stOn
  constructor
  · exact (C8_connect_to_agent stOff "AAAA-BBBB" "127.0.0.1" 22 2222 "0a1b2c3d"
      (by decide) (by decide)).1 rfl
  · exact (C8_connect_to_agent stOn "AAAA-BBBB" "127.0.0.1" 22 2222 "0a1b2c3d"
      (by decide) (by decide)).2 "q" rfl

end Tunnel
